import Mathlib

/-!
Shallow embedding of netatmo_to_cloudwatch.py.

The source walks a nested station/module telemetry tree (Netatmo weather
data), normalizes readings into CloudWatch metric records, and sends them
in batches of at most 20 per call.

Modelling conventions:
  - Python dictionaries with known key sets become structures whose fields
    are wrapped in Option: a field holding none models the key being absent
    from the dictionary.
  - A Python subscript lookup d[k], which raises KeyError when k is absent,
    becomes dict_index, returning Except String.
  - A Python d.get(k) lookup, which returns None when k is absent, is the
    Option field itself (helper get_data) or get_dashboard_data.
  - The dashboard_data sub-dictionary maps reading names to numbers; it is
    modelled as an association list with the lookup of Python dict.get.
  - The while loop of send_data_to_cloudwatch becomes a recursion on the
    cursor, parameterized by the publish collaborator
    (cloudwatch.put_metric_data), which may fail (Except).  The function
    returns the trace of batches passed to the collaborator together with
    the final outcome, so that invocation counts and error propagation are
    observable.
-/

namespace Netatmo

/-- A dashboard_data dictionary: reading name to numeric value.  The
reserved key "time_utc" holds the epoch timestamp. -/
abbrev Dashboard := List (String × Int)

/-- One module dictionary of the source tree.  Every field is Option:
none models the key being absent from the dictionary. -/
structure Module where
  module_name : Option String
  reachable : Option Bool
  data_type : Option (List String)
  rf_status : Option Int
  battery_vp : Option Int
  dashboard_data : Option Dashboard
  deriving Repr, DecidableEq

/-- One station dictionary of the source tree. -/
structure Station where
  module_name : Option String
  dashboard_data : Option Dashboard
  modules : Option (List Module)
  deriving Repr, DecidableEq

/-- The normalized metric record built by create_metric_data.  The single
dimension named "ModuleName" is kept as its value only; Unit is the
constant string "None" in the source. -/
structure MetricRecord where
  MetricName : String
  DimensionValue : Option String
  Value : Option Int
  Timestamp : Option Int
  deriving Repr, DecidableEq

/-- Embedding of Python subscript lookup source[key]: raises KeyError when
the key is absent. -/
def dict_index {α : Type} (key : String) (field : Option α) : Except String α :=
  match field with
  | some v => Except.ok v
  | none => Except.error ("KeyError: " ++ key)

/-- Embedding of get_data(item_name, source), i.e. source.get(item_name):
absent key degrades to none. -/
def get_data {α : Type} (field : Option α) : Option α :=
  field

/-- Embedding of get_dashboard_data(item_name, source): if "dashboard_data"
is a key of source, look item_name up in it with dict.get; otherwise None. -/
def get_dashboard_data (item_name : String) (source_dashboard : Option Dashboard) :
    Option Int :=
  match source_dashboard with
  | some d => d.lookup item_name
  | none => none

/-- Embedding of create_metric_data. -/
def create_metric_data (metric_name : String) (dimension_value : Option String)
    (metric_value : Option Int) (metric_timestamp : Option Int) : MetricRecord :=
  { MetricName := metric_name
    DimensionValue := dimension_value
    Value := metric_value
    Timestamp := metric_timestamp }

/-- The five station-level appends of fetch_weather_data (lines 51-75):
Temperature, CO2, Humidity, Noise, Air_Pressure (from dashboard key
"Pressure"), all with the station name and dashboard time. -/
def station_metrics (station : Station) : List MetricRecord :=
  let station_name := get_data station.module_name
  let station_time := get_dashboard_data "time_utc" station.dashboard_data
  let station_temp := get_dashboard_data "Temperature" station.dashboard_data
  let station_co2 := get_dashboard_data "CO2" station.dashboard_data
  let station_humidity := get_dashboard_data "Humidity" station.dashboard_data
  let station_noise := get_dashboard_data "Noise" station.dashboard_data
  let station_pressure := get_dashboard_data "Pressure" station.dashboard_data
  [create_metric_data "Temperature" station_name station_temp station_time,
   create_metric_data "CO2" station_name station_co2 station_time,
   create_metric_data "Humidity" station_name station_humidity station_time,
   create_metric_data "Noise" station_name station_noise station_time,
   create_metric_data "Air_Pressure" station_name station_pressure station_time]

/-- One iteration of the module loop of fetch_weather_data (lines 78-133).
The subscript lookups module["reachable"] and module["data_type"] can raise
KeyError; a module whose reachable flag is false contributes nothing
(continue). -/
def module_metrics (module : Module) : Except String (List MetricRecord) := do
  let reachable ← dict_index "reachable" module.reachable
  if !reachable then
    return []
  let module_name := get_data module.module_name
  let module_time := get_dashboard_data "time_utc" module.dashboard_data
  let module_signal := get_data module.rf_status
  let module_battery := get_data module.battery_vp
  let base :=
    [create_metric_data "Signal_Strength" module_name module_signal module_time,
     create_metric_data "Battery_Status" module_name module_battery module_time]
  let data_type ← dict_index "data_type" module.data_type
  let temperature_part :=
    if "Temperature" ∈ data_type then
      [create_metric_data "Temperature" module_name
         (get_dashboard_data "Temperature" module.dashboard_data) module_time,
       create_metric_data "Humidity" module_name
         (get_dashboard_data "Humidity" module.dashboard_data) module_time]
    else []
  let co2_part :=
    if "CO2" ∈ data_type then
      [create_metric_data "CO2" module_name
         (get_dashboard_data "CO2" module.dashboard_data) module_time]
    else []
  let rain_part :=
    if "Rain" ∈ data_type then
      [create_metric_data "Rain" module_name
         (get_dashboard_data "Rain" module.dashboard_data) module_time,
       create_metric_data "Rain_1_hour" module_name
         (get_dashboard_data "sum_rain_1" module.dashboard_data) module_time,
       create_metric_data "Rain_24_hours" module_name
         (get_dashboard_data "sum_rain_24" module.dashboard_data) module_time]
    else []
  return base ++ temperature_part ++ co2_part ++ rain_part

/-- The module loop over station["modules"], appending the records of
each module in order. -/
def modules_metrics : List Module → Except String (List MetricRecord)
  | [] => Except.ok []
  | m :: rest => do
    let r ← module_metrics m
    let rs ← modules_metrics rest
    return r ++ rs

/-- One iteration of the station loop of fetch_weather_data: the five
station-level records, then the records of the modules under
station["modules"] (a subscript lookup that can raise KeyError). -/
def station_all_metrics (station : Station) : Except String (List MetricRecord) := do
  let station_records := station_metrics station
  let mods ← dict_index "modules" station.modules
  let module_records ← modules_metrics mods
  return station_records ++ module_records

/-- Embedding of fetch_weather_data over the stations of the tree (the
stations dictionary is modelled as the list of its values in iteration
order). -/
def fetch_weather_data : List Station → Except String (List MetricRecord)
  | [] => Except.ok []
  | st :: rest => do
    let r ← station_all_metrics st
    let rs ← fetch_weather_data rest
    return r ++ rs

/-- The slice event_data[current_position:end_position] computed by one
iteration of the while loop of send_data_to_cloudwatch (lines 178-186):
end_position is current_position + 20 - 1, clamped to item_count - 1, and
the Python slice is exclusive at its end. -/
def batch_slice {α : Type} (event_data : List α) (item_count current_position : Nat) :
    List α :=
  let end_position := current_position + 20 - 1
  let end_position := if end_position ≥ item_count then item_count - 1 else end_position
  (event_data.drop current_position).take (end_position - current_position)

/-- The while loop of send_data_to_cloudwatch (lines 177-198), parameterized
by the publish collaborator.  Returns the trace of batches passed to publish
in order, and the final outcome: an exception from publish aborts the loop
and propagates. -/
def send_loop {α : Type} (publish : List α → Except String Unit) (event_data : List α)
    (item_count current_position : Nat) : List (List α) × Except String Unit :=
  if current_position < item_count then
    let data := batch_slice event_data item_count current_position
    match publish data with
    | Except.error e => ([data], Except.error e)
    | Except.ok _ =>
      let r := send_loop publish event_data item_count (current_position + 20)
      (data :: r.1, r.2)
  else ([], Except.ok ())
  termination_by item_count - current_position

/-- Embedding of send_data_to_cloudwatch: item_count = len(event_data),
cursor starts at 0. -/
def send_data_to_cloudwatch {α : Type} (publish : List α → Except String Unit)
    (event_data : List α) : List (List α) × Except String Unit :=
  send_loop publish event_data event_data.length 0


lemma send_loop_stop {α : Type} (publish : List α → Except String Unit) (event_data : List α)
    (item_count current_position : Nat) (h : ¬ current_position < item_count) :
    send_loop publish event_data item_count current_position = ([], Except.ok ()) := by
  rw [send_loop]
  simp [h]

lemma batch_slice_last_empty {α : Type} (l : List α) (n q : Nat) (h : n = 20 * q + 1) :
    batch_slice l n (20 * q) = [] := by
  simp only [batch_slice]
  rw [if_pos (by omega)]
  rw [show n - 1 - 20 * q = 0 from by omega]
  simp

lemma range_map_shift {β : Type} (g : Nat → β) (m : Nat) :
    (List.range (m + 1)).map g = g 0 :: (List.range m).map (fun k => g (k + 1)) := by
  rw [List.range_succ_eq_map, List.map_cons, List.map_map]
  rfl

lemma send_loop_ok {α : Type} (publish : List α → Except String Unit) (event_data : List α)
    (item_count : Nat) (hp : ∀ b, publish b = Except.ok ()) :
    ∀ cur, send_loop publish event_data item_count cur =
      ((List.range ((item_count - cur + 19) / 20)).map
        (fun k => batch_slice event_data item_count (cur + 20 * k)),
       Except.ok ()) := by
  suffices h : ∀ d cur, item_count - cur ≤ d →
      send_loop publish event_data item_count cur =
      ((List.range ((item_count - cur + 19) / 20)).map
        (fun k => batch_slice event_data item_count (cur + 20 * k)),
       Except.ok ()) by
    intro cur
    exact h (item_count - cur) cur le_rfl
  intro d
  induction d with
  | zero =>
    intro cur hd
    rw [send_loop_stop _ _ _ _ (by omega)]
    have h0 : (item_count - cur + 19) / 20 = 0 := by omega
    simp [h0]
  | succ d ih =>
    intro cur hd
    by_cases hc : cur < item_count
    · rw [send_loop]
      simp only [hc, if_pos, hp]
      rw [ih (cur + 20) (by omega)]
      have hm : (item_count - cur + 19) / 20 = (item_count - (cur + 20) + 19) / 20 + 1 := by
        omega
      rw [hm, range_map_shift]
      simp only [Nat.mul_zero, Nat.add_zero]
      congr 2
      apply List.map_congr_left
      intro k hk
      congr 1
      omega
    · rw [send_loop_stop _ _ _ _ hc]
      have h0 : (item_count - cur + 19) / 20 = 0 := by omega
      simp [h0]


lemma send_loop_err {α : Type} (publish : List α → Except String Unit) (event_data : List α)
    (item_count : Nat) (e : String) :
    ∀ k cur, cur + 20 * k < item_count →
    (∀ j < k, publish (batch_slice event_data item_count (cur + 20 * j)) = Except.ok ()) →
    publish (batch_slice event_data item_count (cur + 20 * k)) = Except.error e →
    send_loop publish event_data item_count cur =
      ((List.range (k + 1)).map (fun j => batch_slice event_data item_count (cur + 20 * j)),
       Except.error e) := by
  intro k
  induction k with
  | zero =>
    intro cur hlt hok herr
    have hc : cur < item_count := by omega
    have herr2 : publish (batch_slice event_data item_count cur) = Except.error e := by
      simpa using herr
    rw [send_loop]
    simp [hc, herr2, List.range_succ]
  | succ k ih =>
    intro cur hlt hok herr
    have hc : cur < item_count := by omega
    have h0 : publish (batch_slice event_data item_count cur) = Except.ok () := by
      simpa using hok 0 (by omega)
    rw [send_loop]
    simp only [hc, if_pos, h0]
    rw [ih (cur + 20) (by omega) ?_ ?_]
    · conv_rhs => rw [range_map_shift]
      simp only [Nat.mul_zero, Nat.add_zero]
      congr 2
      apply List.map_congr_left
      intro j hj
      congr 1
      omega
    · intro j hj
      rw [show cur + 20 + 20 * j = cur + 20 * (j + 1) from by omega]
      exact hok (j + 1) (by omega)
    · rw [show cur + 20 + 20 * k = cur + 20 * (k + 1) from by omega]
      exact herr


/-- C1: the claim states every batch slice contains exactly
min(maxBatchSize, length - cursor) elements.  The code computes the end
index as cursor + 20 - 1 and slices exclusively, so on a 2-element input
the single batch holds 1 element, not min(20, 2) = 2: the second record
is dropped. -/
theorem c1_batch_size_code_behavior :
    (send_data_to_cloudwatch (fun _ => Except.ok ()) [(0 : Nat), 1]).1 = [[0]] ∧
      ([[0]] : List (List Nat)).map List.length ≠ [min 20 2] := by
  constructor
  · simp [send_data_to_cloudwatch, send_loop, batch_slice]
  · decide

/-- C2: the claim states concatenating all batches reconstructs the input.
On the 2-element input [5, 6] the code publishes the single batch [5] and
drops 6, so the concatenation differs from the input. -/
theorem c2_concat_code_behavior :
    ((send_data_to_cloudwatch (fun _ => Except.ok ()) [(5 : Nat), 6]).1).flatten = [5] ∧
      ([5] : List Nat) ≠ [5, 6] := by
  constructor
  · simp [send_data_to_cloudwatch, send_loop, batch_slice]
  · decide

/-- C8: when every publish call succeeds, the collaborator is invoked once
per cursor position 0, 20, 40, ..., i.e. exactly ceil(N/20) times, in
sequence order, the k-th invocation receiving the slice computed at cursor
20k, and the loop completes normally. -/
theorem c8_publish_invocations {α : Type} (publish : List α → Except String Unit)
    (event_data : List α) (hp : ∀ b, publish b = Except.ok ()) :
    (send_data_to_cloudwatch publish event_data).1 =
      (List.range ((event_data.length + 19) / 20)).map
        (fun k => batch_slice event_data event_data.length (20 * k)) ∧
    (send_data_to_cloudwatch publish event_data).1.length = (event_data.length + 19) / 20 ∧
    (send_data_to_cloudwatch publish event_data).2 = Except.ok () := by
  unfold send_data_to_cloudwatch
  rw [send_loop_ok publish event_data event_data.length hp 0]
  refine ⟨by simp, by simp, rfl⟩

/-- Witness for C8 at a concrete input: three records make one batch, and
the publish collaborator is invoked exactly once. -/
theorem c8_witness :
    (send_data_to_cloudwatch (fun _ => Except.ok ()) [(3 : Nat), 1, 4]).1.length = 1 := by
  have h := c8_publish_invocations (fun _ => Except.ok ()) [(3 : Nat), 1, 4] (fun b => rfl)
  simpa using h.2.1

/-- C9: if the publish call for batch k fails (all earlier ones succeed),
the loop stops: exactly batches 0..k are handed to the collaborator, each
once, and the error of batch k propagates unchanged. -/
theorem c9_error_propagation {α : Type} (publish : List α → Except String Unit)
    (event_data : List α) (k : Nat) (e : String)
    (hk : 20 * k < event_data.length)
    (hok : ∀ j < k, publish (batch_slice event_data event_data.length (20 * j)) = Except.ok ())
    (herr : publish (batch_slice event_data event_data.length (20 * k)) = Except.error e) :
    send_data_to_cloudwatch publish event_data =
      ((List.range (k + 1)).map (fun j => batch_slice event_data event_data.length (20 * j)),
       Except.error e) := by
  unfold send_data_to_cloudwatch
  have h := send_loop_err publish event_data event_data.length e k 0 (by omega)
    (by intro j hj; simpa using hok j hj) (by simpa using herr)
  simpa using h

/-- Witness for C9 at a concrete input: the publish collaborator fails on
the first batch, the trace holds that batch only, and the error
propagates. -/
theorem c9_witness :
    send_data_to_cloudwatch (fun _ => Except.error "boom") [(1 : Nat), 2] =
      ([[1]], Except.error "boom") := by
  have h := c9_error_propagation (fun _ => Except.error "boom") [(1 : Nat), 2] 0 "boom"
    (by simp) (by intro j hj; exact absurd hj (Nat.not_lt_zero j)) rfl
  rw [h]
  simp [batch_slice, List.range_succ]

/-- C10: when N mod 20 = 1, the final cursor position is N - 1 and the
clamped end index equals it, so the last slice is empty: the publish
collaborator is still invoked with a batch of zero records. -/
theorem c10_empty_final_batch {α : Type} (publish : List α → Except String Unit)
    (event_data : List α) (hp : ∀ b, publish b = Except.ok ())
    (hN : event_data.length % 20 = 1) :
    (send_data_to_cloudwatch publish event_data).1 ≠ [] ∧
    (send_data_to_cloudwatch publish event_data).1.getLast? = some [] := by
  unfold send_data_to_cloudwatch
  rw [send_loop_ok publish event_data event_data.length hp 0]
  have hq : event_data.length = 20 * (event_data.length / 20) + 1 := by omega
  have hcount : (event_data.length - 0 + 19) / 20 = event_data.length / 20 + 1 := by omega
  rw [hcount, List.range_succ, List.map_append]
  have hlast : batch_slice event_data event_data.length (20 * (event_data.length / 20)) = [] :=
    batch_slice_last_empty event_data event_data.length (event_data.length / 20) hq
  constructor
  · simp
  · simp [hlast, List.getLast?_concat]

/-- Witness for C10 at a concrete input: a single record yields one publish
invocation whose batch is empty. -/
theorem c10_witness :
    (send_data_to_cloudwatch (fun _ => Except.ok ()) [(7 : Nat)]).1.getLast? = some [] :=
  (c10_empty_final_batch (fun _ => Except.ok ()) [(7 : Nat)] (fun b => rfl) (by simp)).2


lemma ok_bind {α β : Type} (v : α) (f : α → Except String β) :
    (Except.ok v >>= f : Except String β) = f v := rfl

lemma error_bind {α β : Type} (e : String) (f : α → Except String β) :
    (Except.error e >>= f : Except String β) = Except.error e := rfl

lemma pure_eq_ok {α : Type} (v : α) : (pure v : Except String α) = Except.ok v := rfl


lemma module_metrics_unreachable (m : Module) (h : m.reachable = some false) :
    module_metrics m = Except.ok [] := by
  simp [module_metrics, dict_index, h, ok_bind, pure_eq_ok]

lemma module_metrics_no_reachable_key (m : Module) (h : m.reachable = none) :
    module_metrics m = Except.error "KeyError: reachable" := by
  simp [module_metrics, dict_index, h, error_bind]

lemma module_metrics_no_data_type_key (m : Module) (hr : m.reachable = some true)
    (h : m.data_type = none) :
    module_metrics m = Except.error "KeyError: data_type" := by
  simp [module_metrics, dict_index, hr, h, ok_bind, error_bind]

lemma module_metrics_reachable (m : Module) (tags : List String)
    (hr : m.reachable = some true) (ht : m.data_type = some tags) :
    module_metrics m = Except.ok (
      [create_metric_data "Signal_Strength" (get_data m.module_name) (get_data m.rf_status)
         (get_dashboard_data "time_utc" m.dashboard_data),
       create_metric_data "Battery_Status" (get_data m.module_name) (get_data m.battery_vp)
         (get_dashboard_data "time_utc" m.dashboard_data)]
      ++ (if "Temperature" ∈ tags then
            [create_metric_data "Temperature" (get_data m.module_name)
               (get_dashboard_data "Temperature" m.dashboard_data)
               (get_dashboard_data "time_utc" m.dashboard_data),
             create_metric_data "Humidity" (get_data m.module_name)
               (get_dashboard_data "Humidity" m.dashboard_data)
               (get_dashboard_data "time_utc" m.dashboard_data)]
          else [])
      ++ (if "CO2" ∈ tags then
            [create_metric_data "CO2" (get_data m.module_name)
               (get_dashboard_data "CO2" m.dashboard_data)
               (get_dashboard_data "time_utc" m.dashboard_data)]
          else [])
      ++ (if "Rain" ∈ tags then
            [create_metric_data "Rain" (get_data m.module_name)
               (get_dashboard_data "Rain" m.dashboard_data)
               (get_dashboard_data "time_utc" m.dashboard_data),
             create_metric_data "Rain_1_hour" (get_data m.module_name)
               (get_dashboard_data "sum_rain_1" m.dashboard_data)
               (get_dashboard_data "time_utc" m.dashboard_data),
             create_metric_data "Rain_24_hours" (get_data m.module_name)
               (get_dashboard_data "sum_rain_24" m.dashboard_data)
               (get_dashboard_data "time_utc" m.dashboard_data)]
          else [])) := by
  simp [module_metrics, dict_index, hr, ht, ok_bind, pure_eq_ok]

lemma modules_metrics_cons_ok (m : Module) (rest : List Module) (a b : List MetricRecord)
    (h1 : module_metrics m = Except.ok a) (h2 : modules_metrics rest = Except.ok b) :
    modules_metrics (m :: rest) = Except.ok (a ++ b) := by
  simp [modules_metrics, h1, h2, ok_bind, pure_eq_ok]

lemma modules_metrics_ok (ms : List Module)
    (h : ∀ m ∈ ms, m.reachable ≠ none ∧ (m.reachable = some true → m.data_type ≠ none)) :
    ∃ rs, modules_metrics ms = Except.ok rs := by
  induction ms with
  | nil => exact ⟨[], rfl⟩
  | cons m rest ih =>
    have hm := h m (by simp)
    obtain ⟨rs, hrs⟩ := ih (fun m2 hm2 => h m2 (by simp [hm2]))
    rcases hb : m.reachable with _ | b
    · exact absurd hb hm.1
    rcases b with _ | _
    · exact ⟨[] ++ rs, modules_metrics_cons_ok m rest [] rs (module_metrics_unreachable m hb) hrs⟩
    · rcases hdt : m.data_type with _ | tags
      · exact absurd hdt (hm.2 hb)
      exact ⟨_, modules_metrics_cons_ok m rest _ rs (module_metrics_reachable m tags hb hdt) hrs⟩

lemma station_all_metrics_ok (st : Station) (ms : List Module) (hms : st.modules = some ms)
    (h : ∀ m ∈ ms, m.reachable ≠ none ∧ (m.reachable = some true → m.data_type ≠ none)) :
    ∃ rs, station_all_metrics st = Except.ok rs := by
  obtain ⟨rs, hrs⟩ := modules_metrics_ok ms h
  exact ⟨station_metrics st ++ rs,
    by simp [station_all_metrics, dict_index, hms, hrs, ok_bind, pure_eq_ok]⟩


/-- C3: extraction never fails on a tree whose modules carry their
structural attributes (reachable flag, and a capability-tag set when
reachable): a missing dashboard, missing reading key, missing display
name, missing rf_status or battery_vp, or a capability tag not in the
set, never produces a KeyError. -/
theorem c3_no_missing_key_error (stations : List Station)
    (h : ∀ st ∈ stations, ∃ ms, st.modules = some ms ∧
      ∀ m ∈ ms, m.reachable ≠ none ∧ (m.reachable = some true → m.data_type ≠ none)) :
    ∃ records, fetch_weather_data stations = Except.ok records := by
  induction stations with
  | nil => exact ⟨[], rfl⟩
  | cons st rest ih =>
    obtain ⟨ms, hms, hmods⟩ := h st (by simp)
    obtain ⟨rs1, h1⟩ := station_all_metrics_ok st ms hms hmods
    obtain ⟨rs2, h2⟩ := ih (fun st2 hst2 => h st2 (by simp [hst2]))
    exact ⟨rs1 ++ rs2, by simp [fetch_weather_data, h1, h2, ok_bind, pure_eq_ok]⟩

/-- Witness for C3: a tree with every optional key missing (no dashboards,
no names, no rf_status, no battery_vp, an unreachable module without even
a data_type key, and a reachable module with an empty tag set) extracts
without error. -/
theorem c3_witness :
    ∃ records,
      fetch_weather_data
        [{ module_name := none, dashboard_data := none,
           modules := some
             [{ module_name := none, reachable := some false, data_type := none,
                rf_status := none, battery_vp := none, dashboard_data := none },
              { module_name := none, reachable := some true, data_type := some [],
                rf_status := none, battery_vp := none, dashboard_data := none }] }] =
        Except.ok records := by
  apply c3_no_missing_key_error
  intro st hst
  simp at hst
  subst hst
  refine ⟨_, rfl, ?_⟩
  intro m hm
  simp at hm
  rcases hm with hm | hm <;> subst hm <;> simp


/-- C4: every station yields exactly 5 station-level records, in the fixed
order Temperature, CO2, Humidity, Noise, Air_Pressure, the last taking its
value from dashboard key "Pressure"; a station without a dashboard still
yields all 5, each with value and timestamp absent. -/
theorem c4_station_five_metrics (station : Station) :
    (station_metrics station).length = 5 ∧
    (station_metrics station).map MetricRecord.MetricName =
      ["Temperature", "CO2", "Humidity", "Noise", "Air_Pressure"] ∧
    (station_metrics station).map MetricRecord.Value =
      [get_dashboard_data "Temperature" station.dashboard_data,
       get_dashboard_data "CO2" station.dashboard_data,
       get_dashboard_data "Humidity" station.dashboard_data,
       get_dashboard_data "Noise" station.dashboard_data,
       get_dashboard_data "Pressure" station.dashboard_data] ∧
    (station.dashboard_data = none →
      ∀ r ∈ station_metrics station, r.Value = none ∧ r.Timestamp = none) := by
  refine ⟨rfl, rfl, rfl, ?_⟩
  intro h r hr
  simp [station_metrics, get_dashboard_data, h, create_metric_data] at hr
  rcases hr with hr | hr | hr | hr | hr <;> subst hr <;> exact ⟨rfl, rfl⟩

/-- Witness for C4: a dashboard-less station still yields the 5 fixed
records with absent values. -/
theorem c4_witness :
    (station_metrics { module_name := some "Garden", dashboard_data := none,
                       modules := some [] }).map MetricRecord.MetricName =
      ["Temperature", "CO2", "Humidity", "Noise", "Air_Pressure"] ∧
    (station_metrics { module_name := some "Garden", dashboard_data := none,
                       modules := some [] }).map MetricRecord.Value = [none, none, none, none, none] := by
  have h := c4_station_five_metrics
    { module_name := some "Garden", dashboard_data := none, modules := some [] }
  exact ⟨h.2.1, by simpa [get_dashboard_data] using h.2.2.1⟩

/-- C5: a module whose reachable flag is false contributes zero records,
whatever its tags or dashboard hold, and removing it from a module list
leaves the extraction of the remaining modules unchanged. -/
theorem c5_unreachable_module_skipped (m : Module) (h : m.reachable = some false) :
    module_metrics m = Except.ok [] ∧
    ∀ ms1 ms2 : List Module, modules_metrics (ms1 ++ m :: ms2) = modules_metrics (ms1 ++ ms2) := by
  refine ⟨module_metrics_unreachable m h, ?_⟩
  intro ms1 ms2
  induction ms1 with
  | nil =>
    simp only [List.nil_append]
    simp only [modules_metrics, module_metrics_unreachable m h, ok_bind]
    rcases hms : modules_metrics ms2 with e | rs
    · simp [hms, error_bind]
    · simp [hms, ok_bind, pure_eq_ok]
  | cons m1 rest ih =>
    simp only [List.cons_append, modules_metrics, List.append_eq, ih]

/-- Witness for C5: an unreachable module with full tags and a populated
dashboard still yields zero records. -/
theorem c5_witness :
    module_metrics
      { module_name := some "Outdoor", reachable := some false,
        data_type := some ["Temperature", "CO2", "Rain"], rf_status := some 60,
        battery_vp := some 5000,
        dashboard_data := some [("time_utc", 2000), ("Temperature", 20)] } = Except.ok [] :=
  (c5_unreachable_module_skipped
    { module_name := some "Outdoor", reachable := some false,
      data_type := some ["Temperature", "CO2", "Rain"], rf_status := some 60,
      battery_vp := some 5000,
      dashboard_data := some [("time_utc", 2000), ("Temperature", 20)] } rfl).1


/-- C6: a reachable module always yields Signal_Strength and Battery_Status
first, taken from the top-level rf_status and battery_vp attributes, then
Temperature and Humidity exactly when the tag set contains "Temperature",
CO2 exactly when it contains "CO2", and Rain, Rain_1_hour, Rain_24_hours
exactly when it contains "Rain". -/
theorem c6_capability_gating (m : Module) (tags : List String)
    (hr : m.reachable = some true) (ht : m.data_type = some tags) :
    ∃ records, module_metrics m = Except.ok records ∧
      records.map MetricRecord.MetricName =
        ["Signal_Strength", "Battery_Status"]
          ++ (if "Temperature" ∈ tags then ["Temperature", "Humidity"] else [])
          ++ (if "CO2" ∈ tags then ["CO2"] else [])
          ++ (if "Rain" ∈ tags then ["Rain", "Rain_1_hour", "Rain_24_hours"] else []) ∧
      records.length = 2 + (if "Temperature" ∈ tags then 2 else 0)
          + (if "CO2" ∈ tags then 1 else 0) + (if "Rain" ∈ tags then 3 else 0) ∧
      records.take 2 =
        [create_metric_data "Signal_Strength" (get_data m.module_name) (get_data m.rf_status)
           (get_dashboard_data "time_utc" m.dashboard_data),
         create_metric_data "Battery_Status" (get_data m.module_name) (get_data m.battery_vp)
           (get_dashboard_data "time_utc" m.dashboard_data)] := by
  refine ⟨_, module_metrics_reachable m tags hr ht, ?_, ?_, ?_⟩
  · split_ifs <;> simp [create_metric_data]
  · split_ifs <;> simp
  · rfl

/-- Witness for C6: a reachable module tagged only Temperature yields
exactly 4 records. -/
theorem c6_witness :
    ∃ records,
      module_metrics
        { module_name := some "Indoor", reachable := some true,
          data_type := some ["Temperature"], rf_status := some 70, battery_vp := some 5500,
          dashboard_data := some [("time_utc", 3000), ("Temperature", 19), ("Humidity", 55)] } =
        Except.ok records ∧
      records.map MetricRecord.MetricName =
        ["Signal_Strength", "Battery_Status"]
          ++ (if "Temperature" ∈ ["Temperature"] then ["Temperature", "Humidity"] else [])
          ++ (if "CO2" ∈ ["Temperature"] then ["CO2"] else [])
          ++ (if "Rain" ∈ ["Temperature"] then ["Rain", "Rain_1_hour", "Rain_24_hours"] else []) ∧
      records.length = 2 + (if "Temperature" ∈ ["Temperature"] then 2 else 0)
          + (if "CO2" ∈ ["Temperature"] then 1 else 0)
          + (if "Rain" ∈ ["Temperature"] then 3 else 0) ∧
      records.take 2 =
        [create_metric_data "Signal_Strength" (some "Indoor") (some 70) (some 3000),
         create_metric_data "Battery_Status" (some "Indoor") (some 5500) (some 3000)] := by
  have h := c6_capability_gating
    { module_name := some "Indoor", reachable := some true,
      data_type := some ["Temperature"], rf_status := some 70, battery_vp := some 5500,
      dashboard_data := some [("time_utc", 3000), ("Temperature", 19), ("Humidity", 55)] }
    ["Temperature"] rfl rfl
  simpa [get_data, get_dashboard_data] using h


lemma module_metrics_binding (m : Module) (records : List MetricRecord)
    (h : module_metrics m = Except.ok records) :
    ∀ r ∈ records, r.DimensionValue = get_data m.module_name ∧
      r.Timestamp = get_dashboard_data "time_utc" m.dashboard_data := by
  rcases hb : m.reachable with _ | b
  · rw [module_metrics_no_reachable_key m hb] at h
    exact absurd h (by simp)
  rcases b with _ | _
  · rw [module_metrics_unreachable m hb] at h
    injection h with h2
    subst h2
    intro r hr
    simp at hr
  · rcases hdt : m.data_type with _ | tags
    · rw [module_metrics_no_data_type_key m hb hdt] at h
      exact absurd h (by simp)
    rw [module_metrics_reachable m tags hb hdt] at h
    injection h with h2
    subst h2
    simp only [List.forall_mem_append]
    split_ifs <;> simp [List.forall_mem_cons, create_metric_data]

/-- C7: every record among the five of a station carries the display name
and dashboard timestamp of that station, and every record of a module
carries the display name and dashboard timestamp of that very module. -/
theorem c7_dimension_timestamp_binding (station : Station) (m : Module)
    (records : List MetricRecord) :
    (∀ r ∈ station_metrics station,
        r.DimensionValue = get_data station.module_name ∧
        r.Timestamp = get_dashboard_data "time_utc" station.dashboard_data) ∧
    (module_metrics m = Except.ok records →
      ∀ r ∈ records,
        r.DimensionValue = get_data m.module_name ∧
        r.Timestamp = get_dashboard_data "time_utc" m.dashboard_data) := by
  constructor
  · intro r hr
    simp [station_metrics, create_metric_data] at hr
    rcases hr with hr | hr | hr | hr | hr <;> subst hr <;> exact ⟨rfl, rfl⟩
  · exact module_metrics_binding m records


/-- Witness for C7, on the scenario of a station "Home" with dashboard
timestamp 1000 and a reachable module "Outdoor" with its own timestamp
2000: a station record carries "Home" and 1000, a module record carries
"Outdoor" and 2000. -/
theorem c7_witness :
    ((create_metric_data "Temperature" (some "Home") (some 21) (some 1000)).DimensionValue
        = some "Home" ∧
     (create_metric_data "Temperature" (some "Home") (some 21) (some 1000)).Timestamp
        = some 1000) ∧
    ((create_metric_data "Temperature" (some "Outdoor") (some 5) (some 2000)).DimensionValue
        = some "Outdoor" ∧
     (create_metric_data "Temperature" (some "Outdoor") (some 5) (some 2000)).Timestamp
        = some 2000) := by
  have h := c7_dimension_timestamp_binding
    { module_name := some "Home",
      dashboard_data := some [("time_utc", 1000), ("Temperature", 21)], modules := some [] }
    { module_name := some "Outdoor", reachable := some true,
      data_type := some ["Temperature"], rf_status := some 80, battery_vp := some 6000,
      dashboard_data := some [("time_utc", 2000), ("Temperature", 5)] }
    [create_metric_data "Signal_Strength" (some "Outdoor") (some 80) (some 2000),
     create_metric_data "Battery_Status" (some "Outdoor") (some 6000) (some 2000),
     create_metric_data "Temperature" (some "Outdoor") (some 5) (some 2000),
     create_metric_data "Humidity" (some "Outdoor") none (some 2000)]
  constructor
  · have h1 := h.1 (create_metric_data "Temperature" (some "Home") (some 21) (some 1000))
      (by simp [station_metrics, create_metric_data, get_data, get_dashboard_data, List.lookup])
    simpa [get_data, get_dashboard_data] using h1
  · have h2 := h.2
      (by simp [module_metrics, dict_index, ok_bind, pure_eq_ok, get_data, get_dashboard_data,
        create_metric_data, List.lookup])
      (create_metric_data "Temperature" (some "Outdoor") (some 5) (some 2000))
      (by simp [create_metric_data])
    simpa [get_data, get_dashboard_data] using h2

end Netatmo
